import Mathlib

/-!
Shallow embedding of the voice-assistant backend (`src/backend/src`): the
conversation store (`conversation_store.py`), the processing pipeline worker
(`app_controller.py`, class `ProcessingWorker`), the prompt builder
(`llm_module.py`, class `PromptBuilder`), the audio recorder
(`audio_recorder.py`) and the hotkey manager (`hotkey_manager.py`).

Python I/O effects are made explicit: durable writes are recorded in a
`savedSessions` log and may be told to fail through a `saveOk : Bool`
parameter (a failing `json.dump` raises); audio copies are recorded in a
`copiedFiles` log; Qt signal emissions and collaborator calls performed by
the worker are recorded in an action trace.  Floats are modelled as
rationals, exceptions as `Except`, timestamp-derived file names as
deterministic stand-ins (the concrete characters of those names are never
relevant to any property proved below).
-/

namespace RubberDuck

/-- Role of a conversation message (`MessageRole` in `conversation_store.py`). -/
inductive MessageRole where
  | user
  | assistant
deriving DecidableEq, Repr

/-- A single conversation message (`Message` in `conversation_store.py`).
The wall-clock `timestamp` field is omitted: no property below depends on it. -/
structure Message where
  role : MessageRole
  content : String
  audioPath : Option String := none
  sentiment : Option String := none
  sentimentConfidence : Option ℚ := none
deriving DecidableEq, Repr

/-- One application session (`Session` in `conversation_store.py`).
`ended` models whether `ended_at` has been stamped. -/
structure Session where
  sessionId : String
  projectName : String
  messages : List Message := []
  ended : Bool := false
deriving DecidableEq, Repr

/-- Errors raised by store operations: `RuntimeError` for a missing session,
and a failing durable write inside `_save_session`. -/
inductive StoreErr where
  | noActiveSession
  | saveFailed
deriving DecidableEq, Repr

/-- The exception message attached to each store error (the `RuntimeError`
text comes from `conversation_store.py`; a failed write carries whatever
message the OS produced, modelled by a fixed stand-in). -/
def StoreErr.message : StoreErr → String
  | .noActiveSession => "Brak aktywnej sesji. Wywołaj start_session() najpierw."
  | .saveFailed => "zapis sesji nie powiódł się"

/-- In-memory state of `ConversationStore` plus an explicit log of its durable
effects: `savedSessions` records every successful `_save_session` write (in
order) and `copiedFiles` records every audio file copied by `_store_audio`. -/
structure StoreState where
  currentSession : Option Session := none
  currentProject : Option String := none
  savedSessions : List Session := []
  copiedFiles : List String := []
deriving DecidableEq, Repr

/-- Embedding of `ConversationStore._save_session`: serializes the session to its JSON
file.  `saveOk = false` models the write raising; then nothing durable
happens and the exception propagates. -/
def saveSession (st : StoreState) (sess : Session) (saveOk : Bool) :
    StoreState × Except StoreErr Unit :=
  if saveOk then
    ({ st with savedSessions := st.savedSessions ++ [sess] }, Except.ok ())
  else
    (st, Except.error StoreErr.saveFailed)

/-- Embedding of `ConversationStore._store_audio`: copies the recording into the project's
audio directory and returns the destination path; with no current project it
returns the source path unchanged and copies nothing.  The timestamp-based
destination name is modelled as a deterministic rename of the source. -/
def storeAudioFile (st : StoreState) (sourcePath : String) :
    StoreState × String :=
  match st.currentProject with
  | none => (st, sourcePath)
  | some _ =>
      let destPath := "copied_" ++ sourcePath
      ({ st with copiedFiles := st.copiedFiles ++ [destPath] }, destPath)

/-- The audio-copy step at the top of `add_user_message`: when an audio
path is given and the file exists (`audioExists` models
`Path(audio_path).exists()`), run `_store_audio`; otherwise the stored
path stays `None`. -/
def storedAudioOf (st : StoreState) (audioPath : Option String)
    (audioExists : Bool) : StoreState × Option String :=
  match audioPath with
  | some p =>
      if audioExists then
        let r := storeAudioFile st p
        (r.1, some r.2)
      else (st, none)
  | none => (st, none)

/-- The user `Message` value `add_user_message` constructs (named so that
theorems can refer to it). -/
def userMessageOf (st : StoreState) (content : String)
    (audioPath : Option String) (audioExists : Bool)
    (sentiment : Option String) (sentimentConfidence : Option ℚ) : Message :=
  { role := MessageRole.user, content := content,
    audioPath := (storedAudioOf st audioPath audioExists).2,
    sentiment := sentiment, sentimentConfidence := sentimentConfidence }

/-- Embedding of `ConversationStore.add_user_message`: raises if no session is active;
otherwise copies the audio (when a path is given and the file exists),
appends the user message in memory, then write-through saves the session.
A failing save raises *after* the in-memory append (no rollback). -/
def addUserMessage (st : StoreState) (content : String)
    (audioPath : Option String) (audioExists : Bool)
    (sentiment : Option String) (sentimentConfidence : Option ℚ)
    (saveOk : Bool) : StoreState × Except StoreErr Message :=
  match st.currentSession with
  | none => (st, Except.error StoreErr.noActiveSession)
  | some sess =>
      let stored := storedAudioOf st audioPath audioExists
      let message := userMessageOf st content audioPath audioExists
        sentiment sentimentConfidence
      let sess1 : Session := { sess with messages := sess.messages ++ [message] }
      let st2 : StoreState := { stored.1 with currentSession := some sess1 }
      let saved := saveSession st2 sess1 saveOk
      match saved.2 with
      | Except.ok _ => (saved.1, Except.ok message)
      | Except.error e => (saved.1, Except.error e)

/-- Embedding of `ConversationStore.add_assistant_message`: raises if no session is
active; otherwise appends the assistant message in memory, then write-through
saves the session (again, no rollback on a failing save). -/
def addAssistantMessage (st : StoreState) (content : String)
    (saveOk : Bool) : StoreState × Except StoreErr Message :=
  match st.currentSession with
  | none => (st, Except.error StoreErr.noActiveSession)
  | some sess =>
      let message : Message := { role := MessageRole.assistant, content := content }
      let sess1 : Session := { sess with messages := sess.messages ++ [message] }
      let st2 : StoreState := { st with currentSession := some sess1 }
      let saved := saveSession st2 sess1 saveOk
      match saved.2 with
      | Except.ok _ => (saved.1, Except.ok message)
      | Except.error e => (saved.1, Except.error e)

/-- Embedding of `ConversationStore.end_session`: no-op when no session is active; else
stamps the end time, saves, and only then clears `current_session` (a failing
save raises before the clear). -/
def endSession (st : StoreState) (saveOk : Bool) :
    StoreState × Except StoreErr Unit :=
  match st.currentSession with
  | none => (st, Except.ok ())
  | some sess =>
      let sess1 : Session := { sess with ended := true }
      let st1 : StoreState := { st with currentSession := some sess1 }
      let saved := saveSession st1 sess1 saveOk
      match saved.2 with
      | Except.ok _ => ({ saved.1 with currentSession := none }, Except.ok ())
      | Except.error e => (saved.1, Except.error e)

/-- Embedding of `ConversationStore.start_session`: ends any current session first, then
installs a fresh empty session for the project.  The timestamp-derived
session id is a parameter. -/
def startSession (st : StoreState) (projectName sessionId : String)
    (saveOk : Bool) : StoreState × Except StoreErr Session :=
  let ended :=
    if st.currentSession.isSome then endSession st saveOk
    else (st, Except.ok ())
  match ended.2 with
  | Except.error e => (ended.1, Except.error e)
  | Except.ok _ =>
      let sess : Session :=
        { sessionId := sessionId, projectName := projectName }
      let st1 : StoreState :=
        { ended.1 with currentSession := some sess, currentProject := some projectName }
      (st1, Except.ok sess)

/-- Result of an STT transcription as consumed by the worker
(`stt_result.success / .text / .error_message` in `app_controller.py`). -/
structure SttResult where
  success : Bool
  text : String := ""
  errorMessage : String := ""
deriving DecidableEq, Repr

/-- Whitespace as stripped by Python's `str.strip()`. -/
def isSpaceChar (c : Char) : Bool :=
  c = ' ' || c = '\t' || c = '\n' || c = '\r'

/-- Python's `str.strip()`: drop leading and trailing whitespace. -/
def stripText (s : String) : String :=
  String.mk (((s.data.dropWhile isSpaceChar).reverse.dropWhile isSpaceChar).reverse)

/-- Modelled from the spec: the ElevenLabs STT provider (class
`ElevenLabsSTT`, imported by `app_controller.py` but absent from the
sources — `stt_module.py` only contains unimplemented provider stubs).
Spec §4.3 step 1: "Empty or whitespace-only transcript after trimming →
fails with `EmptyTranscript`"; otherwise the transcript is returned as a
success.  `rawText` is the text produced by the remote recognizer. -/
def elevenLabsTranscribe (rawText : String) : SttResult :=
  if stripText rawText = "" then
    { success := false, text := "", errorMessage := "EmptyTranscript" }
  else
    { success := true, text := rawText }

/-- Sentiment labels (`Sentiment` in `sentiment_analyzer.py`). -/
inductive Sentiment where
  | positive
  | negative
  | neutral
deriving DecidableEq, Repr

/-- Embedding of `Sentiment.value`: the string payload of the enum. -/
def Sentiment.value : Sentiment → String
  | .positive => "positive"
  | .negative => "negative"
  | .neutral => "neutral"

/-- Embedding of `SentimentResult` from `sentiment_analyzer.py` (the per-label `scores`
dict is omitted: the worker never reads it). -/
structure SentimentResult where
  sentiment : Sentiment
  confidence : ℚ
deriving DecidableEq, Repr

/-- Embedding of `HerBERTSentimentAnalyzer.analyze` as it stands in
`sentiment_analyzer.py`: it unconditionally raises `NotImplementedError`. -/
def herbertAnalyze (_text : String) : Except String SentimentResult :=
  Except.error "NotImplementedError: HerBERT analyzer nie jest jeszcze zaimplementowany"

/-- Embedding of `LLMResponse` from `llm_module.py`. -/
structure LLMResponse where
  content : String
  success : Bool := true
  errorMessage : String := ""
deriving DecidableEq, Repr

/-- Result of `tts.speak` as consumed by the worker (`tts_result.success /
.error_message`). -/
structure TtsResult where
  success : Bool
  errorMessage : String := ""
deriving DecidableEq, Repr

/-- Observable actions of one `ProcessingWorker.run` execution, in order:
Qt signal emissions (`transcription_ready`, `sentiment_ready`,
`response_ready`, `speaking_started`, `speaking_finished`, `error`) and the
collaborator / store calls the worker performs between them. -/
inductive Act where
  | sttCall
  | transcriptionReady (text : String)
  | sentimentCall
  | sentimentReady (label : String) (confidence : ℚ)
  | userMessageSaved
  | llmCall
  | responseReady (text : String)
  | speakingStarted
  | ttsCall
  | speakingFinished
  | errorSignal (msg : String)
deriving DecidableEq, Repr

/-- Embedding of `ProcessingWorker.run` from `app_controller.py`, stage by stage:

1. abort when `audio_path` is falsy;
2. STT: on `not stt_result.success` emit `error` and return;
   else emit `transcription_ready`;
3. sentiment: `analyze` may raise — an exception reaches the worker's
   top-level `except`, which emits `error` and returns;
   else emit `sentiment_ready`;
4. `add_user_message` (raises propagate to the top-level `except`);
5. prepare the LLM context (`set_project` / `set_history` /
   `set_sentiment` are pure setters on the prompt builder, modelled by
   `PromptBuilderState` below — they touch neither the store nor signals);
6. LLM `generate_response`: on failure emit `error` and return;
7. `add_assistant_message`, then emit `response_ready`;
8. TTS: when available and enabled, emit `speaking_started`, call
   `tts.speak`, and emit `speaking_finished` whether or not the call
   succeeded (a failure is only printed); otherwise emit
   `speaking_finished` directly.

Collaborator outcomes and the durable-write outcome (`saveOk`) are inputs;
the function returns the final store state and the ordered action trace. -/
def workerRun (audioPath : String) (audioExists : Bool)
    (sttResult : SttResult)
    (sentimentOutcome : Except String SentimentResult)
    (llmResponse : LLMResponse)
    (ttsAvailable ttsEnabled : Bool) (_ttsResult : TtsResult)
    (st : StoreState) (saveOk : Bool) : StoreState × List Act :=
  if audioPath = "" then
    (st, [Act.errorSignal "Brak nagrania audio"])
  else if !sttResult.success then
    (st, [Act.sttCall, Act.errorSignal ("STT: " ++ sttResult.errorMessage)])
  else
    let userText := sttResult.text
    let acts0 := [Act.sttCall, Act.transcriptionReady userText]
    match sentimentOutcome with
    | Except.error e =>
        (st, acts0 ++ [Act.sentimentCall, Act.errorSignal ("Błąd: " ++ e)])
    | Except.ok sres =>
        let sentiment := sres.sentiment.value
        let confidence := sres.confidence
        let acts1 := acts0 ++ [Act.sentimentCall, Act.sentimentReady sentiment confidence]
        let added := addUserMessage st userText (some audioPath) audioExists
          (some sentiment) (some confidence) saveOk
        match added.2 with
        | Except.error e =>
            (added.1, acts1 ++ [Act.errorSignal ("Błąd: " ++ e.message)])
        | Except.ok _ =>
            let acts2 := acts1 ++ [Act.userMessageSaved, Act.llmCall]
            if !llmResponse.success then
              (added.1, acts2 ++ [Act.errorSignal ("LLM: " ++ llmResponse.errorMessage)])
            else
              let responseText := llmResponse.content
              let added2 := addAssistantMessage added.1 responseText saveOk
              match added2.2 with
              | Except.error e =>
                  (added2.1, acts2 ++ [Act.errorSignal ("Błąd: " ++ e.message)])
              | Except.ok _ =>
                  let acts3 := acts2 ++ [Act.responseReady responseText]
                  if ttsAvailable && ttsEnabled then
                    (added2.1, acts3 ++ [Act.speakingStarted, Act.ttsCall, Act.speakingFinished])
                  else
                    (added2.1, acts3 ++ [Act.speakingFinished])

/-- Embedding of `ProjectContext` from `llm_module.py`. -/
structure ProjectContext where
  name : String
  description : String := ""
  techStack : List String := []
  businessAssumptions : String := ""
  additionalContext : String := ""
deriving DecidableEq, Repr

/-- Embedding of `ProjectContext.to_prompt_section`. -/
def ProjectContext.toPromptSection (pc : ProjectContext) : String :=
  String.intercalate "\n"
    ([ "Projekt: " ++ pc.name ]
      ++ (if pc.description ≠ "" then ["Opis: " ++ pc.description] else [])
      ++ (if pc.techStack ≠ [] then
            ["Stack technologiczny: " ++ String.intercalate ", " pc.techStack]
          else [])
      ++ (if pc.businessAssumptions ≠ "" then
            ["Założenia biznesowe: " ++ pc.businessAssumptions]
          else [])
      ++ (if pc.additionalContext ≠ "" then
            ["Dodatkowy kontekst: " ++ pc.additionalContext]
          else []))

/-- Embedding of `PromptBuilder.PERSONA` (the fixed Senior-Mentor persona text). -/
def PERSONA : String :=
  "Jesteś Rubber Duck Assistant - doświadczonym Senior Developerem i Mentorem.\n\n## Twoja rola:\n- Pomagasz programistom rozwiązywać problemy metodą \"rubber duck debugging\"\n- Słuchasz opisu problemu i zadajesz pytania naprowadzające\n- NIE dajesz od razu gotowych rozwiązań - pomagasz użytkownikowi samemu dojść do odpowiedzi\n- Sugerujesz biblioteki, frameworki i wzorce projektowe gdy to pomocne\n\n## Twój styl:\n- Odpowiadasz po polsku, zwięźle i rzeczowo\n- Jesteś konkretny i na temat\n- Jeśli nie jesteś pewny o co chodzi użytkownikowi - ZAWSZE najpierw dopytaj\n- Zadajesz jedno pytanie na raz\n- Unikasz zbędnego gadania - liczy się treść\n\n## Zasady:\n- Jeśli pytanie jest niejasne - zacznij od dopytania \"Czy dobrze rozumiem, że...?\" lub \"Możesz doprecyzować...?\"\n- Zawsze odnosisz się do kontekstu projektu użytkownika\n- Pamiętasz o czym była rozmowa w tej sesji\n- Jeśli nie znasz odpowiedzi - mówisz to wprost"

/-- Embedding of `PromptBuilder.SENTIMENT_INSTRUCTIONS` as a total lookup:
`dict.get(label, "")` returns the empty string for `"neutral"` and for any
unknown label. -/
def sentimentInstructionFor : String → String
  | "negative" =>
      "\nUWAGA: Użytkownik wydaje się sfrustrowany.\n- Okaż zrozumienie krótko (\"Rozumiem frustrację\")\n- Bądź szczególnie konkretny i pomocny\n- Możesz zasugerować przerwę jeśli problem jest złożony"
  | "positive" =>
      "\nUżytkownik jest pozytywnie nastawiony - możesz być bardziej bezpośredni."
  | _ => ""

/-- The confidence threshold hard-coded in
`PromptBuilder.build_system_prompt` (`self.sentiment_confidence > 0.6`). -/
def sentimentThreshold : ℚ := 6/10

/-- Mutable state of `PromptBuilder` (the conversation history is carried
but `build_system_prompt` never reads it). -/
structure PromptBuilderState where
  projectContext : Option ProjectContext := none
  conversationHistory : List (String × String) := []
  currentSentiment : Option String := none
  sentimentConfidence : ℚ := 0
deriving DecidableEq, Repr

/-- Python truthiness of the `current_sentiment` field (`None` and the
empty string are falsy). -/
def sentimentTruthy : Option String → Bool
  | none => false
  | some s => s ≠ ""

/-- The sentiment-conditioned block appended by
`PromptBuilder.build_system_prompt`: present only when `current_sentiment`
is truthy, the confidence strictly exceeds the threshold, and the looked-up
instruction text is non-empty. -/
def buildSentimentSection (pb : PromptBuilderState) : Option String :=
  if sentimentTruthy pb.currentSentiment ∧ sentimentThreshold < pb.sentimentConfidence then
    match pb.currentSentiment with
    | some s =>
        let instruction := sentimentInstructionFor s
        if instruction ≠ "" then some instruction else none
    | none => none
  else none

/-- The project-context section appended by `build_system_prompt` when a
project is set. -/
def projectContextSections (pb : PromptBuilderState) : List String :=
  match pb.projectContext with
  | some pc => ["\n## Kontekst projektu użytkownika:\n" ++ pc.toPromptSection]
  | none => []

/-- The `sections` list assembled by `PromptBuilder.build_system_prompt`:
persona, then the optional project context, then the optional sentiment
instruction block. -/
def buildSystemPromptSections (pb : PromptBuilderState) : List String :=
  [PERSONA] ++ projectContextSections pb ++ (buildSentimentSection pb).toList

/-- Embedding of `PromptBuilder.build_system_prompt`: the sections joined by newlines. -/
def buildSystemPrompt (pb : PromptBuilderState) : String :=
  String.intercalate "\n" (buildSystemPromptSections pb)

/-- State of `AudioRecorder` (`audio_recorder.py`): the recording flag, the
buffered PCM frames (opaque chunks), and whether the PyAudio stream/device
handles are open. -/
structure RecorderState where
  isRecording : Bool := false
  frames : List Nat := []
  deviceOpen : Bool := false
deriving DecidableEq, Repr

/-- Embedding of `AudioRecorder._cleanup`: closes the stream and device handles and
clears the frame buffer (it does not touch `is_recording`). -/
def recorderCleanup (st : RecorderState) : RecorderState :=
  { st with frames := [], deviceOpen := false }

/-- Embedding of `AudioRecorder.start_recording`.  Returns `false` without touching any
state when PyAudio is missing or a capture is already in progress; on a
device error (`deviceOk = false`) the `except` branch runs `_cleanup` and
returns `false`; on success it opens the device, sets `is_recording`,
resets the frame buffer and starts the capture loop. -/
def startRecording (st : RecorderState) (pyaudioAvailable deviceOk : Bool) :
    RecorderState × Bool :=
  if !pyaudioAvailable then (st, false)
  else if st.isRecording then (st, false)
  else if deviceOk then
    ({ isRecording := true, frames := [], deviceOpen := true }, true)
  else
    (recorderCleanup st, false)

/-- One iteration of `AudioRecorder._record_loop`: while recording, a chunk
read from the stream is appended to the frame buffer. -/
def captureChunk (st : RecorderState) (chunk : Nat) : RecorderState :=
  if st.isRecording then { st with frames := st.frames ++ [chunk] } else st

/-- The timestamp-based WAV file name produced by `stop_recording`,
modelled as a fixed stand-in (no property depends on its characters). -/
def recordingFileName : String := "recording.wav"

/-- Embedding of `AudioRecorder.stop_recording`.  Returns `none` immediately when not
recording; otherwise clears the flag, joins the capture loop, writes the
buffered frames to a WAV file (returning its path) when the buffer is
non-empty and the write succeeds, and returns `none` when the buffer is
empty or the write raised; `_cleanup` runs in every non-early-return path. -/
def stopRecording (st : RecorderState) (writeOk : Bool) :
    RecorderState × Option String :=
  if !st.isRecording then (st, none)
  else
    let st1 := { st with isRecording := false }
    if st1.frames ≠ [] then
      if writeOk then (recorderCleanup st1, some recordingFileName)
      else (recorderCleanup st1, none)
    else (recorderCleanup st1, none)

/-- Keys as seen by `hotkey_manager.py`.  The left/right modifier variants
mirror pynput's `Key.ctrl_l` / `Key.ctrl_r` etc.; character keys mirror
`KeyCode.from_char`.  (`parse_hotkey` only ever produces left variants,
`cmd`, and character keys, so these constructors cover every key a
configured combination can contain.) -/
inductive PKey where
  | ctrl_l
  | ctrl_r
  | shift_l
  | shift_r
  | alt_l
  | alt_r
  | cmd
  | char (c : Char)
deriving DecidableEq, Repr

/-- Embedding of `HotkeyManager._normalize_key`: a key whose name ends in `_r` is
replaced by its `_l` counterpart; everything else is unchanged. -/
def normalizeKey : PKey → PKey
  | .ctrl_r => .ctrl_l
  | .shift_r => .shift_l
  | .alt_r => .alt_l
  | k => k

/-- Edge-triggered hotkey events. -/
inductive HEvent where
  | activate
  | deactivate
deriving DecidableEq, Repr

/-- State of `HotkeyManager`: the configured combination (`current_hotkey`,
empty when none), the set of currently pressed (normalized) keys, and the
`is_pressed` edge flag. -/
structure HotkeyState where
  combo : Finset PKey := ∅
  pressedKeys : Finset PKey := ∅
  isPressed : Bool := false
deriving DecidableEq

/-- Embedding of `HotkeyManager._on_press`: add the normalized key to the pressed set;
if a combination is configured and is now a subset of the pressed set and
`is_pressed` was not yet set, set it and emit `Activate`. -/
def onPress (st : HotkeyState) (k : PKey) : HotkeyState × Option HEvent :=
  if st.combo.Nonempty ∧ st.combo ⊆ insert (normalizeKey k) st.pressedKeys
      ∧ st.isPressed = false then
    ({ st with
        pressedKeys := insert (normalizeKey k) st.pressedKeys,
        isPressed := true }, some HEvent.activate)
  else ({ st with pressedKeys := insert (normalizeKey k) st.pressedKeys }, none)

/-- Embedding of `HotkeyManager._on_release`: discard both the normalized and the raw
key from the pressed set; if `is_pressed` is set, a combination is
configured, and it is no longer a subset of the pressed set, clear
`is_pressed` and emit `Deactivate`. -/
def onRelease (st : HotkeyState) (k : PKey) : HotkeyState × Option HEvent :=
  if st.isPressed = true ∧ st.combo.Nonempty
      ∧ ¬ st.combo ⊆ (st.pressedKeys.erase (normalizeKey k)).erase k then
    ({ st with
        pressedKeys := (st.pressedKeys.erase (normalizeKey k)).erase k,
        isPressed := false }, some HEvent.deactivate)
  else ({ st with pressedKeys := (st.pressedKeys.erase (normalizeKey k)).erase k }, none)

/-- Run a sequence of key-down events, collecting the emitted hotkey
events in order. -/
def runPresses (st : HotkeyState) : List PKey → HotkeyState × List HEvent
  | [] => (st, [])
  | k :: ks =>
      let step := onPress st k
      let rest := runPresses step.1 ks
      (rest.1, step.2.toList ++ rest.2)

/-- State of `AppController` (`app_controller.py`) restricted to the parts
the pipeline-submission path touches: the `is_listening` flag, the audio
recorder, and the processing workers started so far (`true` = the worker
thread is still running, i.e. its run is non-terminal; `stop_listening`
only ever *adds* a started worker — nothing in the controller waits for or
checks the previous one). -/
structure AppState where
  isListening : Bool := false
  recorder : RecorderState := {}
  workers : List Bool := []
deriving DecidableEq, Repr

/-- Embedding of `AppController.start_listening`: returns immediately when already
listening; otherwise calls `start_recording` (its Bool result is ignored)
and sets `is_listening`. -/
def startListening (s : AppState) (pyaudioAvailable deviceOk : Bool) : AppState :=
  if s.isListening then s
  else
    let r := startRecording s.recorder pyaudioAvailable deviceOk
    { s with recorder := r.1, isListening := true }

/-- The capture loop appending a chunk while the app records. -/
def appCaptureChunk (s : AppState) (chunk : Nat) : AppState :=
  { s with recorder := captureChunk s.recorder chunk }

/-- Embedding of `AppController.stop_listening`: returns immediately when not listening;
otherwise clears `is_listening`, stops the recorder, and — whenever a
recording path was produced — unconditionally creates and starts a new
`ProcessingWorker` (there is no check whether a previous worker is still
running). -/
def stopListening (s : AppState) (writeOk : Bool) : AppState :=
  if !s.isListening then s
  else
    let s1 := { s with isListening := false }
    let r := stopRecording s1.recorder writeOk
    match r.2 with
    | some _ => { s1 with recorder := r.1, workers := s1.workers ++ [true] }
    | none => { s1 with recorder := r.1 }

/-- A worker thread finishing its run (the QThread terminating): marks that
worker terminal. -/
def finishWorker (s : AppState) (i : Nat) : AppState :=
  { s with workers := s.workers.set i false }

/-- Number of non-terminal (still running) pipeline runs. -/
def activeRuns (s : AppState) : Nat :=
  (s.workers.filter id).length

/-- A concrete session used to instantiate hypothesis-bearing theorems. -/
def demoSess : Session :=
  { sessionId := "20240101_120000", projectName := "demo" }

/-- A concrete store state with `demoSess` active. -/
def demoStore : StoreState :=
  { currentSession := some demoSess, currentProject := some "demo" }

/-! ## Theorems -/

lemma storedAudioOf_savedSessions (st : StoreState) (a : Option String)
    (e : Bool) : (storedAudioOf st a e).1.savedSessions = st.savedSessions := by
  cases a with
  | none => rfl
  | some p =>
      cases e with
      | false => rfl
      | true => cases h : st.currentProject <;> simp [storedAudioOf, storeAudioFile, h]

/-- C7.  Persistence-error non-rollback: when a session is active and the
durable write fails (`saveOk = false`), both `add_user_message` and
`add_assistant_message` propagate the save error to the caller, the
in-memory session still contains the just-appended message, and the durable
log is unchanged. -/
theorem C7_persistence_no_rollback
    (st : StoreState) (sess : Session) (content : String)
    (audioPath : Option String) (audioExists : Bool)
    (sentiment : Option String) (conf : Option ℚ)
    (h : st.currentSession = some sess) :
    ((addUserMessage st content audioPath audioExists sentiment conf false).2
        = Except.error StoreErr.saveFailed
      ∧ (userMessageOf st content audioPath audioExists sentiment conf).role
          = MessageRole.user
      ∧ (userMessageOf st content audioPath audioExists sentiment conf).content
          = content
      ∧ (addUserMessage st content audioPath audioExists sentiment conf false).1.currentSession
          = some { sess with messages := sess.messages
              ++ [userMessageOf st content audioPath audioExists sentiment conf] }
      ∧ (addUserMessage st content audioPath audioExists sentiment conf false).1.savedSessions
          = st.savedSessions)
    ∧ ((addAssistantMessage st content false).2 = Except.error StoreErr.saveFailed
      ∧ (addAssistantMessage st content false).1.currentSession
          = some { sess with messages := sess.messages
              ++ [{ role := MessageRole.assistant, content := content }] }
      ∧ (addAssistantMessage st content false).1.savedSessions = st.savedSessions) := by
  constructor
  · refine ⟨?_, rfl, rfl, ?_, ?_⟩ <;>
      simp [addUserMessage, h, saveSession, storedAudioOf_savedSessions]
  · refine ⟨?_, ?_, ?_⟩ <;> simp [addAssistantMessage, h, saveSession]

/-- Witness for C7 at a concrete store, session and message. -/
theorem C7_persistence_no_rollback_witness :
    demoStore.currentSession = some demoSess
    ∧ (addUserMessage demoStore "hej" (some "rec.wav") true (some "negative")
          (some (9/10)) false).2 = Except.error StoreErr.saveFailed :=
  ⟨rfl, (C7_persistence_no_rollback demoStore demoSess "hej" (some "rec.wav")
      true (some "negative") (some (9/10)) rfl).1.1⟩

/-- C10.  With no active session (never started, or ended since), both
append operations raise `RuntimeError` before performing any side effect:
the returned state is the input state unchanged (so nothing was appended,
no session file written, no audio copied), and `end_session` indeed leaves
no active session. -/
theorem C10_no_session_no_side_effects :
    (∀ (st : StoreState) (content : String) (audioPath : Option String)
        (audioExists : Bool) (sentiment : Option String)
        (conf : Option ℚ) (saveOk : Bool),
        st.currentSession = none →
          addUserMessage st content audioPath audioExists sentiment conf saveOk
            = (st, Except.error StoreErr.noActiveSession))
    ∧ (∀ (st : StoreState) (content : String) (saveOk : Bool),
        st.currentSession = none →
          addAssistantMessage st content saveOk
            = (st, Except.error StoreErr.noActiveSession))
    ∧ (∀ st : StoreState, (endSession st true).1.currentSession = none) := by
  refine ⟨?_, ?_, ?_⟩
  · intro st content a e s c ok h
    simp [addUserMessage, h]
  · intro st content ok h
    simp [addAssistantMessage, h]
  · intro st
    cases h : st.currentSession <;> simp [endSession, saveSession, h]

/-- Witness for C10 at the empty store. -/
theorem C10_no_session_no_side_effects_witness :
    addUserMessage {} "hello" (some "rec.wav") true (some "neutral") (some (1/2)) true
      = ({}, Except.error StoreErr.noActiveSession)
    ∧ addAssistantMessage {} "hi" true = ({}, Except.error StoreErr.noActiveSession) :=
  ⟨C10_no_session_no_side_effects.1 {} "hello" (some "rec.wav") true
      (some "neutral") (some (1/2)) true rfl,
    C10_no_session_no_side_effects.2.1 {} "hi" true rfl⟩

lemma addUserMessage_ok (st : StoreState) (sess : Session) (content : String)
    (a : Option String) (e : Bool) (s : Option String) (c : Option ℚ)
    (h : st.currentSession = some sess) :
    addUserMessage st content a e s c true
      = ({ (storedAudioOf st a e).1 with
            currentSession := some { sess with
              messages := sess.messages ++ [userMessageOf st content a e s c] },
            savedSessions := (storedAudioOf st a e).1.savedSessions
              ++ [{ sess with
                messages := sess.messages ++ [userMessageOf st content a e s c] }] },
          Except.ok (userMessageOf st content a e s c)) := by
  simp [addUserMessage, h, saveSession]

lemma addAssistantMessage_ok (st : StoreState) (sess : Session)
    (content : String) (h : st.currentSession = some sess) :
    addAssistantMessage st content true
      = ({ st with
            currentSession := some { sess with
              messages := sess.messages
                ++ [{ role := MessageRole.assistant, content := content }] },
            savedSessions := st.savedSessions
              ++ [{ sess with messages := sess.messages
                  ++ [{ role := MessageRole.assistant, content := content }] }] },
          Except.ok { role := MessageRole.assistant, content := content }) := by
  simp [addAssistantMessage, h, saveSession]

/-- C2.  Durability ordering: when transcription succeeds, sentiment
analysis returns a result, a session is active and the durable write
works, but the LLM call fails, the worker has already written the user
message (transcript, sentiment label, confidence, audio reference) durably
to the active session — the trace shows `userMessageSaved` strictly before
`llmCall` — and the session gains exactly that one user message and no
assistant message. -/
theorem C2_durability_ordering
    (audioPath : String) (audioExists : Bool) (sttResult : SttResult)
    (sres : SentimentResult) (llmResponse : LLMResponse)
    (ttsAvailable ttsEnabled : Bool) (ttsResult : TtsResult)
    (st : StoreState) (sess : Session)
    (hAudio : audioPath ≠ "") (hStt : sttResult.success = true)
    (hLlm : llmResponse.success = false)
    (hSess : st.currentSession = some sess) :
    let m := userMessageOf st sttResult.text (some audioPath) audioExists
      (some sres.sentiment.value) (some sres.confidence)
    let out := workerRun audioPath audioExists sttResult (Except.ok sres)
      llmResponse ttsAvailable ttsEnabled ttsResult st true
    m.role = MessageRole.user
    ∧ m.content = sttResult.text
    ∧ m.sentiment = some sres.sentiment.value
    ∧ m.sentimentConfidence = some sres.confidence
    ∧ (audioExists = true → m.audioPath.isSome = true)
    ∧ out.1.currentSession = some { sess with messages := sess.messages ++ [m] }
    ∧ out.1.savedSessions
        = st.savedSessions ++ [{ sess with messages := sess.messages ++ [m] }]
    ∧ out.2 = [Act.sttCall, Act.transcriptionReady sttResult.text,
        Act.sentimentCall, Act.sentimentReady sres.sentiment.value sres.confidence,
        Act.userMessageSaved, Act.llmCall,
        Act.errorSignal ("LLM: " ++ llmResponse.errorMessage)] := by
  intro m out
  refine ⟨rfl, rfl, rfl, rfl, ?_, ?_, ?_, ?_⟩
  · intro he
    simp [m, userMessageOf, storedAudioOf, he]
  all_goals
    simp only [out, workerRun, hAudio, hStt, hLlm,
      addUserMessage_ok st sess _ _ _ _ _ hSess,
      storedAudioOf_savedSessions, Bool.not_true, Bool.false_eq_true,
      if_false, ite_false]
    simp [hAudio, storedAudioOf_savedSessions]

/-- Witness for C2 at concrete inputs. -/
theorem C2_durability_ordering_witness :
    (workerRun "rec.wav" true { success := true, text := "kod nie działa" }
        (Except.ok { sentiment := Sentiment.negative, confidence := 9/10 })
        { content := "", success := false, errorMessage := "timeout" }
        true true { success := true } demoStore true).1.currentSession
      = some { demoSess with messages :=
          [userMessageOf demoStore "kod nie działa" (some "rec.wav") true
            (some "negative") (some (9/10))] } := by
  have h := C2_durability_ordering "rec.wav" true
    { success := true, text := "kod nie działa" }
    { sentiment := Sentiment.negative, confidence := 9/10 }
    { content := "", success := false, errorMessage := "timeout" }
    true true { success := true } demoStore demoSess
    (by decide) rfl rfl rfl
  exact h.2.2.2.2.2.1

/-- C3.  Empty-input short-circuit: a recording whose transcript is empty
or whitespace-only after trimming makes the (spec-modelled) ElevenLabs STT
provider fail with `EmptyTranscript`, so the worker aborts right after the
STT stage: the sentiment analyzer and the LLM are never called, and the
store is completely untouched. -/
theorem C3_empty_transcript_short_circuit
    (rawText : String) (audioPath : String) (audioExists : Bool)
    (sentimentOutcome : Except String SentimentResult)
    (llmResponse : LLMResponse) (ttsAvailable ttsEnabled : Bool)
    (ttsResult : TtsResult) (st : StoreState) (saveOk : Bool)
    (hRaw : stripText rawText = "") (hAudio : audioPath ≠ "") :
    let out := workerRun audioPath audioExists (elevenLabsTranscribe rawText)
      sentimentOutcome llmResponse ttsAvailable ttsEnabled ttsResult st saveOk
    out.1 = st
    ∧ out.2 = [Act.sttCall, Act.errorSignal ("STT: " ++ "EmptyTranscript")]
    ∧ Act.sentimentCall ∉ out.2
    ∧ Act.llmCall ∉ out.2
    ∧ Act.userMessageSaved ∉ out.2 := by
  intro out
  have hstt : elevenLabsTranscribe rawText
      = { success := false, text := "", errorMessage := "EmptyTranscript" } := by
    simp [elevenLabsTranscribe, hRaw]
  refine ⟨?_, ?_, ?_, ?_, ?_⟩ <;> simp [out, workerRun, hstt, hAudio]

/-- Witness for C3 on a whitespace-only transcript. -/
theorem C3_empty_transcript_short_circuit_witness :
    (workerRun "rec.wav" true (elevenLabsTranscribe "   ")
        (herbertAnalyze "   ") { content := "ok" } true true
        { success := true } demoStore true).1 = demoStore
    ∧ Act.llmCall ∉ (workerRun "rec.wav" true (elevenLabsTranscribe "   ")
        (herbertAnalyze "   ") { content := "ok" } true true
        { success := true } demoStore true).2 :=
  ⟨(C3_empty_transcript_short_circuit "   " "rec.wav" true (herbertAnalyze "   ")
      { content := "ok" } true true { success := true } demoStore true
      (by decide) (by decide)).1,
    (C3_empty_transcript_short_circuit "   " "rec.wav" true (herbertAnalyze "   ")
      { content := "ok" } true true { success := true } demoStore true
      (by decide) (by decide)).2.2.2.1⟩

/-- C4 fails on the code: `ProcessingWorker.run` wraps no handler around the
sentiment stage, so an analyzer exception (and `HerBERTSentimentAnalyzer
.analyze` in the sources always raises `NotImplementedError`) falls through
to the worker's top-level `except`, which emits `error` and aborts the run:
no neutral substitution, no persisted user message, no LLM call. -/
theorem C4_sentiment_failure_counterexample :
    let out := workerRun "rec.wav" true { success := true, text := "nic nie działa" }
      (herbertAnalyze "nic nie działa") { content := "ok" } true true
      { success := true } demoStore true
    out.1 = demoStore
    ∧ Act.llmCall ∉ out.2
    ∧ Act.userMessageSaved ∉ out.2
    ∧ out.2 = [Act.sttCall, Act.transcriptionReady "nic nie działa",
        Act.sentimentCall,
        Act.errorSignal ("Błąd: " ++
          "NotImplementedError: HerBERT analyzer nie jest jeszcze zaimplementowany")] := by
  refine ⟨rfl, by decide, by decide, rfl⟩

/-- C4 amended: a sentiment-analyzer failure (a raised exception) is fatal
to the run — the worker emits an `error` signal and returns with the store
untouched; the user message is not persisted and the LLM is not called. -/
theorem C4_sentiment_failure_amended
    (audioPath : String) (audioExists : Bool) (sttResult : SttResult)
    (e : String) (llmResponse : LLMResponse) (ttsAvailable ttsEnabled : Bool)
    (ttsResult : TtsResult) (st : StoreState) (saveOk : Bool)
    (hAudio : audioPath ≠ "") (hStt : sttResult.success = true) :
    let out := workerRun audioPath audioExists sttResult (Except.error e)
      llmResponse ttsAvailable ttsEnabled ttsResult st saveOk
    out.1 = st
    ∧ out.2 = [Act.sttCall, Act.transcriptionReady sttResult.text,
        Act.sentimentCall, Act.errorSignal ("Błąd: " ++ e)]
    ∧ Act.llmCall ∉ out.2
    ∧ Act.userMessageSaved ∉ out.2 := by
  intro out
  refine ⟨?_, ?_, ?_, ?_⟩ <;> simp [out, workerRun, hAudio, hStt]

/-- Witness for the amended C4 at concrete inputs. -/
theorem C4_sentiment_failure_amended_witness :
    (workerRun "rec.wav" false { success := true, text := "utknąłem" }
        (Except.error "boom") { content := "ok" } false false
        { success := true } demoStore true).1 = demoStore :=
  (C4_sentiment_failure_amended "rec.wav" false
    { success := true, text := "utknąłem" } "boom" { content := "ok" }
    false false { success := true } demoStore true (by decide) rfl).1

/-- C6 fails on the code in one respect: a TTS failure is indeed non-fatal
(the assistant message stays persisted, `response_ready` was emitted, no
`error` is emitted), but the worker emits no speaking-failed signal — on a
failed `tts.speak` it merely prints the error and emits the very same
`speaking_finished` as on success, so the whole observable run (final
store and signal/call trace) is identical to the successful-TTS run. -/
theorem C6_tts_failure_counterexample :
    workerRun "rec.wav" true { success := true, text := "działa świetnie" }
        (Except.ok { sentiment := Sentiment.positive, confidence := 9/10 })
        { content := "Świetnie, co dalej?" } true true
        { success := false, errorMessage := "TTS boom" } demoStore true
      = workerRun "rec.wav" true { success := true, text := "działa świetnie" }
        (Except.ok { sentiment := Sentiment.positive, confidence := 9/10 })
        { content := "Świetnie, co dalej?" } true true
        { success := true } demoStore true := rfl

/-- C6 amended: for every run that reaches the speech-synthesis stage
(TTS available and enabled) with a failing `tts.speak`, the run is not a
pipeline failure — no `error` signal is emitted, the assistant message is
persisted and `response_ready` emitted, and `speaking_finished` is emitted
— but the run is observationally identical to one whose TTS succeeded: no
distinct speaking-failed signal exists. -/
theorem C6_tts_failure_amended
    (audioPath : String) (audioExists : Bool) (sttResult : SttResult)
    (sres : SentimentResult) (llmResponse : LLMResponse) (ttsErr : String)
    (st : StoreState) (sess : Session)
    (hAudio : audioPath ≠ "") (hStt : sttResult.success = true)
    (hLlm : llmResponse.success = true) (hSess : st.currentSession = some sess) :
    let out := workerRun audioPath audioExists sttResult (Except.ok sres)
      llmResponse true true { success := false, errorMessage := ttsErr } st true
    (∀ msg, Act.errorSignal msg ∉ out.2)
    ∧ Act.speakingFinished ∈ out.2
    ∧ Act.responseReady llmResponse.content ∈ out.2
    ∧ (∃ mu ma : Message, ma.role = MessageRole.assistant
        ∧ ma.content = llmResponse.content
        ∧ out.1.currentSession
            = some { sess with messages := sess.messages ++ [mu, ma] })
    ∧ out = workerRun audioPath audioExists sttResult (Except.ok sres)
        llmResponse true true { success := true } st true := by
  intro out
  refine ⟨?_, ?_, ?_, ?_, rfl⟩ <;>
    simp [out, workerRun, hAudio, hStt, hLlm,
      addUserMessage_ok st sess sttResult.text (some audioPath) audioExists
        (some sres.sentiment.value) (some sres.confidence) hSess,
      addAssistantMessage, saveSession]
  exact ⟨_, _, rfl, rfl, rfl, rfl⟩

/-- Witness for the amended C6 at concrete inputs. -/
theorem C6_tts_failure_amended_witness :
    Act.speakingFinished ∈ (workerRun "rec.wav" true
      { success := true, text := "działa świetnie" }
      (Except.ok { sentiment := Sentiment.positive, confidence := 9/10 })
      { content := "Świetnie, co dalej?" } true true
      { success := false, errorMessage := "TTS boom" } demoStore true).2 :=
  (C6_tts_failure_amended "rec.wav" true
    { success := true, text := "działa świetnie" }
    { sentiment := Sentiment.positive, confidence := 9/10 }
    { content := "Świetnie, co dalej?" } "TTS boom" demoStore demoSess
    (by decide) rfl rfl rfl).2.1

/-- C5.  Sentiment gating: the system prompt contains the sentiment
instruction block exactly when the sentiment is set (truthy), the
confidence strictly exceeds the `0.6` threshold, and the label maps to a
non-empty instruction; whenever the confidence is at or below the
threshold, or the label maps to the empty instruction (e.g. `"neutral"`),
the prompt consists of the persona and project sections only — the
sentiment block is absent entirely. -/
theorem C5_sentiment_gating (pb : PromptBuilderState) :
    ((buildSentimentSection pb).isSome = true
        ↔ ∃ s, pb.currentSentiment = some s ∧ s ≠ ""
            ∧ sentimentThreshold < pb.sentimentConfidence
            ∧ sentimentInstructionFor s ≠ "")
    ∧ (pb.sentimentConfidence ≤ sentimentThreshold →
        buildSystemPromptSections pb = [PERSONA] ++ projectContextSections pb)
    ∧ (pb.currentSentiment = some "neutral" →
        buildSystemPromptSections pb = [PERSONA] ++ projectContextSections pb) := by
  refine ⟨?_, ?_, ?_⟩
  · cases h : pb.currentSentiment with
    | none => simp [buildSentimentSection, sentimentTruthy, h]
    | some s =>
        by_cases hs : s = ""
        · simp [buildSentimentSection, sentimentTruthy, h, hs]
        · by_cases hc : sentimentThreshold < pb.sentimentConfidence
          · by_cases hi : sentimentInstructionFor s = "" <;>
              simp [buildSentimentSection, sentimentTruthy, h, hs, hc, hi]
          · simp [buildSentimentSection, sentimentTruthy, h, hs, hc]
  · intro h
    have hneg : ¬ (sentimentTruthy pb.currentSentiment = true
        ∧ sentimentThreshold < pb.sentimentConfidence) := by
      rintro ⟨-, hlt⟩
      exact absurd hlt (not_lt.mpr h)
    simp [buildSystemPromptSections, buildSentimentSection, hneg]
  · intro h
    by_cases hc : sentimentThreshold < pb.sentimentConfidence <;>
      simp [buildSystemPromptSections, buildSentimentSection, h, hc,
        sentimentTruthy, sentimentInstructionFor]

/-- Witness for C5: a low-confidence negative sentiment yields a prompt
with no sentiment block. -/
theorem C5_sentiment_gating_witness :
    buildSystemPromptSections
      { currentSentiment := some "negative", sentimentConfidence := 1/2 }
      = [PERSONA] :=
  (C5_sentiment_gating
      { currentSentiment := some "negative", sentimentConfidence := 1/2 }).2.1
    (by norm_num [sentimentThreshold])

/-- C8.  Idempotent stop / guarded start: from a recording state with a
non-empty frame buffer (and a successful WAV write), the first
`stop_recording` returns the recording's file path, the second returns the
`NotRecording` outcome (`None`, not a crash); and `start_recording` while a
capture is in progress returns the `AlreadyRecording` failure (`False`)
leaving the whole recorder state — in particular the frame buffer —
untouched. -/
theorem C8_idempotent_stop_guarded_start
    (st : RecorderState)
    (hRec : st.isRecording = true) (hFrames : st.frames ≠ []) :
    ((stopRecording st true).2 = some recordingFileName
      ∧ (stopRecording (stopRecording st true).1 true).2 = none)
    ∧ (∀ (st' : RecorderState) (pyaudioAvailable deviceOk : Bool),
        st'.isRecording = true →
        startRecording st' pyaudioAvailable deviceOk = (st', false)) := by
  refine ⟨?_, ?_⟩
  · constructor <;> simp [stopRecording, recorderCleanup, hRec, hFrames]
  · intro st' py dOk h
    cases py <;> simp [startRecording, h]

/-- Witness for C8 at a concrete recorder state. -/
theorem C8_idempotent_stop_guarded_start_witness :
    (stopRecording { isRecording := true, frames := [1], deviceOpen := true } true).2
        = some recordingFileName
    ∧ startRecording { isRecording := true, frames := [1], deviceOpen := true } true true
        = ({ isRecording := true, frames := [1], deviceOpen := true }, false) :=
  ⟨(C8_idempotent_stop_guarded_start
      { isRecording := true, frames := [1], deviceOpen := true } rfl (by decide)).1.1,
    (C8_idempotent_stop_guarded_start
      { isRecording := true, frames := [1], deviceOpen := true } rfl (by decide)).2
      { isRecording := true, frames := [1], deviceOpen := true } true true rfl⟩

lemma onPress_state (st : HotkeyState) (k : PKey) :
    (onPress st k).1.combo = st.combo
    ∧ (onPress st k).1.pressedKeys = insert (normalizeKey k) st.pressedKeys := by
  unfold onPress
  split <;> exact ⟨rfl, rfl⟩

lemma onPress_noemit (st : HotkeyState) (k : PKey) (h : st.isPressed = true) :
    onPress st k
      = ({ st with pressedKeys := insert (normalizeKey k) st.pressedKeys }, none) := by
  unfold onPress
  rw [if_neg]
  rintro ⟨-, -, hfalse⟩
  rw [h] at hfalse
  exact Bool.noConfusion hfalse

lemma runPresses_combo (ks : List PKey) : ∀ st : HotkeyState,
    (runPresses st ks).1.combo = st.combo := by
  induction ks with
  | nil => intro st; rfl
  | cons k ks ih =>
      intro st
      simp only [runPresses]
      rw [ih, (onPress_state st k).1]

lemma runPresses_pressed_mono (ks : List PKey) : ∀ st : HotkeyState,
    st.pressedKeys ⊆ (runPresses st ks).1.pressedKeys := by
  induction ks with
  | nil => intro st; exact Finset.Subset.refl _
  | cons k ks ih =>
      intro st
      simp only [runPresses]
      refine Finset.Subset.trans ?_ (ih (onPress st k).1)
      rw [(onPress_state st k).2]
      exact Finset.subset_insert _ _

lemma runPresses_isPressed_mono (ks : List PKey) : ∀ st : HotkeyState,
    st.isPressed = true → (runPresses st ks).1.isPressed = true := by
  induction ks with
  | nil => intro st h; exact h
  | cons k ks ih =>
      intro st h
      simp only [runPresses, onPress_noemit st k h]
      exact ih _ h

lemma count_activate_runPresses (ks : List PKey) : ∀ st : HotkeyState,
    (runPresses st ks).2.count HEvent.activate
      = if (runPresses st ks).1.isPressed = true ∧ st.isPressed = false
        then 1 else 0 := by
  induction ks with
  | nil =>
      intro st
      cases h : st.isPressed <;> simp [runPresses, h]
  | cons k ks ih =>
      intro st
      cases h : st.isPressed with
      | true =>
          have hmono := runPresses_isPressed_mono ks
            { st with pressedKeys := insert (normalizeKey k) st.pressedKeys } h
          simp only [runPresses, onPress_noemit st k h, Option.toList,
            List.nil_append]
          rw [ih]
          simp [h, hmono]
      | false =>
          by_cases hc : st.combo.Nonempty ∧ st.combo ⊆ insert (normalizeKey k) st.pressedKeys
          · have hstep : onPress st k
                = ({ st with
                      pressedKeys := insert (normalizeKey k) st.pressedKeys,
                      isPressed := true }, some HEvent.activate) := by
              unfold onPress
              rw [if_pos ⟨hc.1, hc.2, h⟩]
            have hmono := runPresses_isPressed_mono ks
              { st with
                pressedKeys := insert (normalizeKey k) st.pressedKeys,
                isPressed := true } rfl
            simp only [runPresses, hstep, Option.toList, List.cons_append,
              List.nil_append]
            rw [List.count_cons]
            rw [ih]
            simp [h, hmono]
          · have hstep : onPress st k
                = ({ st with pressedKeys := insert (normalizeKey k) st.pressedKeys },
                    none) := by
              unfold onPress
              rw [if_neg]
              rintro ⟨h1, h2, -⟩
              exact hc ⟨h1, h2⟩
            simp only [runPresses, hstep, Option.toList, List.nil_append]
            rw [ih]
            simp [h]

lemma isPressed_runPresses_iff (ks : List PKey) : ∀ st : HotkeyState,
    st.isPressed = false → st.combo.Nonempty → ¬ st.combo ⊆ st.pressedKeys →
    ((runPresses st ks).1.isPressed = true
      ↔ st.combo ⊆ (runPresses st ks).1.pressedKeys) := by
  induction ks with
  | nil =>
      intro st h hne hsub
      simp [runPresses, h, hsub]
  | cons k ks ih =>
      intro st h hne hsub
      by_cases hc : st.combo ⊆ insert (normalizeKey k) st.pressedKeys
      · have hstep : onPress st k
            = ({ st with
                  pressedKeys := insert (normalizeKey k) st.pressedKeys,
                  isPressed := true }, some HEvent.activate) := by
          unfold onPress
          rw [if_pos ⟨hne, hc, h⟩]
        have hmono := runPresses_isPressed_mono ks
          { st with
            pressedKeys := insert (normalizeKey k) st.pressedKeys,
            isPressed := true } rfl
        have hpm := runPresses_pressed_mono ks
          { st with
            pressedKeys := insert (normalizeKey k) st.pressedKeys,
            isPressed := true }
        simp only [runPresses, hstep]
        constructor
        · intro _
          exact Finset.Subset.trans hc hpm
        · intro _
          exact hmono
      · have hstep : onPress st k
            = ({ st with pressedKeys := insert (normalizeKey k) st.pressedKeys },
                none) := by
          unfold onPress
          rw [if_neg]
          rintro ⟨-, h2, -⟩
          exact hc h2
        simp only [runPresses, hstep]
        exact ih _ h hne hc

/-- C9.  Hotkey edge-triggering: (1) from an idle hotkey state (edge flag
clear, combination configured and not yet fully pressed), any sequence of
key-down events — in any order, left/right variants normalized, repeats
allowed — emits exactly one `Activate` when the combination ends up fully
pressed and none otherwise (so in particular a repeated key-down while the
combination is held never re-emits); (2) while the edge flag is set,
releasing any one key of the combination emits exactly one `Deactivate` and
clears the flag; (3) a key-down while the edge flag is set emits nothing. -/
theorem C9_hotkey_edge_trigger :
    (∀ (st : HotkeyState) (ks : List PKey),
        st.isPressed = false → st.combo.Nonempty → ¬ st.combo ⊆ st.pressedKeys →
        (runPresses st ks).2.count HEvent.activate
          = if st.combo ⊆ (runPresses st ks).1.pressedKeys then 1 else 0)
    ∧ (∀ (st : HotkeyState) (k : PKey),
        st.isPressed = true → normalizeKey k ∈ st.combo →
        (onRelease st k).2 = some HEvent.deactivate
          ∧ (onRelease st k).1.isPressed = false)
    ∧ (∀ (st : HotkeyState) (k : PKey),
        st.isPressed = true → (onPress st k).2 = none) := by
  refine ⟨?_, ?_, ?_⟩
  · intro st ks hp hne hsub
    rw [count_activate_runPresses]
    have hiff := isPressed_runPresses_iff ks st hp hne hsub
    by_cases hfin : (runPresses st ks).1.isPressed = true
    · simp [hfin, hp, hiff.mp hfin]
    · have hns : ¬ st.combo ⊆ (runPresses st ks).1.pressedKeys :=
        fun hx => hfin (hiff.mpr hx)
      simp [hfin, hns]
  · intro st k hp hk
    have hnotmem : normalizeKey k ∉ (st.pressedKeys.erase (normalizeKey k)).erase k :=
      fun hx => Finset.not_mem_erase _ _ (Finset.mem_of_mem_erase hx)
    have hcond : st.isPressed = true ∧ st.combo.Nonempty
        ∧ ¬ st.combo ⊆ (st.pressedKeys.erase (normalizeKey k)).erase k :=
      ⟨hp, ⟨normalizeKey k, hk⟩, fun hsub => hnotmem (hsub hk)⟩
    constructor <;>
      · unfold onRelease
        rw [if_pos hcond]
  · intro st k hp
    unfold onPress
    rw [if_neg]
    rintro ⟨-, -, hfalse⟩
    rw [hp] at hfalse
    exact Bool.noConfusion hfalse

/-- Witness for C9: the default `ctrl+shift+d` combination, pressed as
right-ctrl, left-shift, `d`, then a repeated `d`, emits exactly one
`Activate`; releasing right-ctrl then emits exactly one `Deactivate`. -/
theorem C9_hotkey_edge_trigger_witness :
    (runPresses
        { combo := {PKey.ctrl_l, PKey.shift_l, PKey.char 'd'} }
        [PKey.ctrl_r, PKey.shift_l, PKey.char 'd', PKey.char 'd']).2.count
      HEvent.activate = 1 := by
  have h := C9_hotkey_edge_trigger.1
    { combo := {PKey.ctrl_l, PKey.shift_l, PKey.char 'd'} }
    [PKey.ctrl_r, PKey.shift_l, PKey.char 'd', PKey.char 'd']
    rfl (by decide) (by decide)
  rw [h]
  decide

/-- C1 fails on the code: `AppController.stop_listening` performs no
busy check before starting a worker, so a listen/stop cycle performed while
a previous run is still active starts a second worker.  Concretely: start
listening, capture a chunk, stop (run 1 starts), then — with run 1 still
running — start listening, capture, and stop again: now two pipeline runs
are non-terminal at once, where the claim allows at most one and demands a
side-effect-free `Busy` rejection of the second submission. -/
theorem C1_single_flight_counterexample :
    activeRuns
      (stopListening
        (appCaptureChunk
          (startListening
            (stopListening (appCaptureChunk (startListening {} true true) 7) true)
            true true)
          8)
        true) = 2 := by decide

/-- C1 amended: whenever the controller is listening with a non-empty frame
buffer (and the WAV write succeeds), `stop_listening` unconditionally starts
a fresh worker — appending one more active run regardless of how many are
already active — so the number of non-terminal runs simply grows by one and
no `Busy` rejection exists. -/
theorem C1_single_flight_amended
    (s : AppState) (hL : s.isListening = true)
    (hR : s.recorder.isRecording = true) (hF : s.recorder.frames ≠ []) :
    (stopListening s true).workers = s.workers ++ [true]
    ∧ (stopListening s true).isListening = false
    ∧ activeRuns (stopListening s true) = activeRuns s + 1 := by
  refine ⟨?_, ?_, ?_⟩ <;>
    simp [stopListening, stopRecording, hL, hR, hF, recorderCleanup,
      activeRuns, List.filter_append]

/-- Witness for the amended C1: stopping while one run is already active
yields two active runs. -/
theorem C1_single_flight_amended_witness :
    (stopListening
      { isListening := true,
        recorder := { isRecording := true, frames := [7], deviceOpen := true },
        workers := [true] } true).workers = [true, true] :=
  (C1_single_flight_amended
    { isListening := true,
      recorder := { isRecording := true, frames := [7], deviceOpen := true },
      workers := [true] } rfl rfl (by decide)).1

end RubberDuck
